import Mathlib

/-!
Verification development for the ocpapi client module
(`src/ocpapi/client/client.py`). The definitions below are a shallow
embedding of the request-execution and failure-classification core:
exception messages, the `_run_request` outcome classification, and the
request descriptors built by the endpoint methods.
-/

/-- Python `str.rstrip("/")`: remove all trailing slash characters.
Modelled from the Python builtin used in `Client.__init__`. -/
def pyRstripSlashes (s : String) : String :=
  String.mk ((s.data.reverse.dropWhile (fun c => c = '/')).reverse)

/-- Whitespace characters stripped by Python `float(str)` before parsing
(ASCII whitespace; exotic unicode whitespace is not modelled). -/
def isPyWs (c : Char) : Bool :=
  c = ' ' || c = '\t' || c = '\n' || c = '\r' || c = '\x0b' || c = '\x0c'

/-- Numeric value of a list of decimal digit characters. -/
def digitsVal (l : List Char) : Nat :=
  l.foldl (fun a c => a * 10 + (c.toNat - 48)) 0

/-- Leading sign of a Python float literal: returns (isNegative, rest). -/
def splitSign : List Char → (Bool × List Char)
  | '-' :: rest => (true, rest)
  | '+' :: rest => (false, rest)
  | l => (false, l)

/-- Exponent part of a Python float literal, applied to a mantissa given
as numerator over denominator. -/
def parseExpPart (mantNum mantDen : Nat) (l : List Char) : Option Rat :=
  let (neg, l2) := splitSign l
  if l2.isEmpty then none
  else if l2.all Char.isDigit then
    let e := digitsVal l2
    some (if neg then mkRat mantNum (mantDen * 10 ^ e) else mkRat (mantNum * 10 ^ e) mantDen)
  else none

/-- Unsigned body of a Python float literal: `digits[.digits][(e|E)exp]`,
with at least one digit in the mantissa. -/
def parseFloatBody (l : List Char) : Option Rat :=
  let (intPart, rest) := l.span Char.isDigit
  let (fracPart, rest2) :=
    match rest with
    | '.' :: r => r.span Char.isDigit
    | _ => ([], rest)
  if intPart.isEmpty && fracPart.isEmpty then none
  else
    let mantNum : Nat := digitsVal intPart * 10 ^ fracPart.length + digitsVal fracPart
    let mantDen : Nat := 10 ^ fracPart.length
    match rest2 with
    | [] => some (mkRat mantNum mantDen)
    | 'e' :: r => parseExpPart mantNum mantDen r
    | 'E' :: r => parseExpPart mantNum mantDen r
    | _ => none

/-- Python `float(str)` on decimal numerals, returning the exact decimal
value as a rational, or `none` when the string does not parse (Python
raises `ValueError` there). Modelled from the Python builtin: optional
surrounding whitespace, optional sign, then `digits[.digits][exponent]`.
Special values (`inf`, `nan`) and underscore digit separators are not
modelled, and the exact value abstracts binary floating-point rounding. -/
def pyFloat? (s : String) : Option Rat :=
  let l := ((s.data.dropWhile isPyWs).reverse.dropWhile isPyWs).reverse
  let (neg, l2) := splitSign l
  match parseFloatBody l2 with
  | some q => some (if neg then -q else q)
  | none => none

/-- Message built by `RequestException.__init__`: the f-string
interpolating method, url and cause as
`Request to <method> <url> failed. <cause>`. -/
def requestExceptionMsg (method url cause : String) : String :=
  "Request to " ++ method ++ " " ++ url ++ " failed. " ++ cause

/-- Transport-level fault raised by `requests.request` before any status
code is produced: carries the Python exception type name and message. -/
structure TransportError where
  typeName : String
  message : String
deriving DecidableEq

/-- Raw HTTP response as `_run_request` consumes it: status code, the
`Retry-After` header when present, and the body text. -/
structure Response where
  status_code : Nat
  retryAfterHeader : Option String
  text : String
deriving DecidableEq

/-- Outcome of `_run_request`: the returned body on success, or the
raised exception. `rateLimitExceeded`, `nonRetryable` and `requestError`
carry the exception message (`RateLimitExceededException`,
`NonRetryableRequestException` and the base `RequestException`
respectively; the first also carries `retry_after` in seconds).
`valueError` is an uncaught Python `ValueError` escaping the method. -/
inductive RunResult where
  | success (body : String)
  | rateLimitExceeded (msg : String) (retry_after : Option Rat)
  | nonRetryable (msg : String)
  | requestError (msg : String)
  | valueError (msg : String)
deriving DecidableEq

/-- Local `cause` string built for non-429 error statuses in
`_run_request`:
`Unexpected response code: <status_code>. Response body: <text>`. -/
def unexpectedCodeCause (r : Response) : String :=
  "Unexpected response code: " ++ toString r.status_code ++ ". Response body: " ++ r.text

/-- Cause string for a transport fault in `_run_request`:
`Exception while making request: <type name>: <message>`. -/
def transportCause (e : TransportError) : String :=
  "Exception while making request: " ++ e.typeName ++ ": " ++ e.message

/-- Shallow embedding of `Client._run_request`'s classification logic.
The transport step is passed in as its result: either the adapter's
fault or the `requests.Response`. Mirrors the source: transport faults
become the base `RequestException`; then status `>= 300` splits into
429 (`RateLimitExceededException`, with `float(retry_after)` raising
`ValueError` on an unparseable header), 4xx
(`NonRetryableRequestException`) and everything else (base
`RequestException`); statuses below 300 return the body text. -/
def run_request (method url : String) (transport : Except TransportError Response) : RunResult :=
  match transport with
  | Except.error e =>
      RunResult.requestError (requestExceptionMsg method url (transportCause e))
  | Except.ok response =>
      if response.status_code ≥ 300 then
        if response.status_code = 429 then
          match response.retryAfterHeader with
          | none =>
              RunResult.rateLimitExceeded
                (requestExceptionMsg method url "Exceeded rate limit") none
          | some header =>
              match pyFloat? header with
              | some seconds =>
                  RunResult.rateLimitExceeded
                    (requestExceptionMsg method url "Exceeded rate limit") (some seconds)
              | none =>
                  RunResult.valueError ("could not convert string to float: " ++ header)
        else
          if response.status_code ≥ 400 ∧ response.status_code < 500 then
            RunResult.nonRetryable
              (requestExceptionMsg method url (unexpectedCodeCause response))
          else
            RunResult.requestError
              (requestExceptionMsg method url (unexpectedCodeCause response))
      else
        RunResult.success response.text

/-- Message of the raised exception when the outcome is one of the four
error classifications (Transport, Client, Rate Limited, Server); `none`
for success and for an uncaught `ValueError`. -/
def RunResult.classificationMsg : RunResult → Option String
  | RunResult.success _ => none
  | RunResult.valueError _ => none
  | RunResult.rateLimitExceeded m _ => some m
  | RunResult.nonRetryable m => some m
  | RunResult.requestError m => some m

/-- Substring containment, stated over the character lists. -/
def strContains (s sub : String) : Prop :=
  sub.data <:+: s.data

instance (s sub : String) : Decidable (strContains s sub) := by
  unfold strContains
  infer_instance

/-- State of a `Client` after `__init__`: the normalized base URL
(`base_url.rstrip("/")`). -/
structure Client where
  _base_url : String
deriving DecidableEq

/-- `Client.__init__`: normalize the base URL so that it does not end in
a `/` character. -/
def Client.init (base_url : String) : Client :=
  { _base_url := pyRstripSlashes base_url }

/-- Value of one query parameter in the `params` dict: either a list of
strings (`fields`) or a list of ints (`config_ids`). -/
inductive PVal where
  | strs (l : List String)
  | ints (l : List Int)
deriving DecidableEq

/-- Python truthiness of an `Optional[List[...]]`: `None` and the empty
list are falsy. -/
def pyTruthy {α : Type} : Option (List α) → Bool
  | none => false
  | some l => !l.isEmpty

/-- JSON value fragment carried in request bodies; serialization
(`json.dumps`) is an opaque collaborator, so bodies are kept in
structured form. Only the shapes the claims need are modelled. -/
inductive JsonValue where
  | str (s : String)
  | obj (fields : List (String × JsonValue))

/-- Request descriptor handed to `_run_request` / `requests.request`:
URL, HTTP method, optional JSON body (`data`), headers, and query
parameters (`params`). -/
structure RequestDescriptor where
  url : String
  method : String
  data : Option JsonValue := none
  headers : List (String × String) := []
  params : List (String × PVal) := []

/-- URL built by `get_bulks`. -/
def get_bulks_url (c : Client) : String :=
  c._base_url ++ "/bulks"

/-- URL built by `get_adsorbates`. -/
def get_adsorbates_url (c : Client) : String :=
  c._base_url ++ "/adsorbates"

/-- URL built by `get_slabs`. -/
def get_slabs_url (c : Client) : String :=
  c._base_url ++ "/slabs"

/-- URL built by `get_adsorbate_slab_configs`. -/
def get_adsorbate_slab_configs_url (c : Client) : String :=
  c._base_url ++ "/adsorbate-slab-configs"

/-- URL built by `submit_adsorbate_slab_relaxations`. -/
def submit_adsorbate_slab_relaxations_url (c : Client) : String :=
  c._base_url ++ "/adsorbate-slab-relaxations"

/-- URL built by `get_adsorbate_slab_relaxations_request`. -/
def get_adsorbate_slab_relaxations_request_url (c : Client) (system_id : String) : String :=
  c._base_url ++ "/adsorbate-slab-relaxations/" ++ system_id

/-- URL built by `get_adsorbate_slab_relaxations_results`. -/
def get_adsorbate_slab_relaxations_results_url (c : Client) (system_id : String) : String :=
  c._base_url ++ "/adsorbate-slab-relaxations/" ++ system_id ++ "/configs"

/-- URL built by `delete_adsorbate_slab_relaxations`. -/
def delete_adsorbate_slab_relaxations_url (c : Client) (system_id : String) : String :=
  c._base_url ++ "/adsorbate-slab-relaxations/" ++ system_id

/-- Query-parameter dict built by `get_adsorbate_slab_relaxations_results`:
starts from an empty dict, adds the key "field" when `fields` is truthy
and then the key "config_id" when `config_ids` is truthy (Python
truthiness: `None` and the empty list add nothing). -/
def resultsParams (config_ids : Option (List Int)) (fields : Option (List String)) :
    List (String × PVal) :=
  let params : List (String × PVal) := []
  let params := if pyTruthy fields then params ++ [("field", PVal.strs (fields.getD []))] else params
  let params := if pyTruthy config_ids then params ++ [("config_id", PVal.ints (config_ids.getD []))] else params
  params

/-- Request built by `get_adsorbate_slab_relaxations_results`. -/
def get_adsorbate_slab_relaxations_results_req (c : Client) (system_id : String)
    (config_ids : Option (List Int)) (fields : Option (List String)) : RequestDescriptor :=
  { url := get_adsorbate_slab_relaxations_results_url c system_id
    method := "GET"
    params := resultsParams config_ids fields }

/-- Bulk material descriptor; only the `src_id` field is read by the
client (`bulk.src_id` in `get_slabs`). -/
structure Bulk where
  src_id : String
deriving DecidableEq

/-- Request built by `get_slabs`. The argument is `Union[str, Bulk]`;
the body is a one-key JSON object mapping "bulk_src_id" to
`bulk.src_id if isinstance(bulk, Bulk) else bulk`. -/
def get_slabs_req (c : Client) (bulk : String ⊕ Bulk) : RequestDescriptor :=
  { url := get_slabs_url c
    method := "POST"
    data := some (JsonValue.obj
      [("bulk_src_id", JsonValue.str
        (match bulk with
         | Sum.inr b => b.src_id
         | Sum.inl s => s))])
    headers := [("Content-Type", "application/json")] }

theorem strContains_of_data_split (s sub : String) (a b : List Char)
    (h : s.data = a ++ sub.data ++ b) : strContains s sub :=
  ⟨a, b, h.symm⟩

theorem method_mem_reqMsg (m u c : String) :
    strContains (requestExceptionMsg m u c) m :=
  strContains_of_data_split _ _ ("Request to ").data ((" " ++ u ++ " failed. " ++ c)).data
    (by simp [requestExceptionMsg, String.data_append, List.append_assoc])

theorem url_mem_reqMsg (m u c : String) :
    strContains (requestExceptionMsg m u c) u :=
  strContains_of_data_split _ _ (("Request to " ++ m ++ " ")).data ((" failed. " ++ c)).data
    (by simp [requestExceptionMsg, String.data_append, List.append_assoc])

theorem code_mem_unexpectedMsg (m u : String) (r : Response) :
    strContains (requestExceptionMsg m u (unexpectedCodeCause r)) (toString r.status_code) :=
  strContains_of_data_split _ _
    (("Request to " ++ m ++ " " ++ u ++ " failed. " ++ "Unexpected response code: ")).data
    (((". Response body: ") ++ r.text)).data
    (by simp [requestExceptionMsg, unexpectedCodeCause, String.data_append, List.append_assoc])

theorem body_mem_unexpectedMsg (m u : String) (r : Response) :
    strContains (requestExceptionMsg m u (unexpectedCodeCause r)) r.text :=
  strContains_of_data_split _ _
    (("Request to " ++ m ++ " " ++ u ++ " failed. " ++ "Unexpected response code: "
      ++ toString r.status_code ++ ". Response body: ")).data
    []
    (by simp [requestExceptionMsg, unexpectedCodeCause, String.data_append, List.append_assoc])

theorem typeName_mem_transportMsg (m u : String) (e : TransportError) :
    strContains (requestExceptionMsg m u (transportCause e)) e.typeName :=
  strContains_of_data_split _ _
    (("Request to " ++ m ++ " " ++ u ++ " failed. " ++ "Exception while making request: ")).data
    (((": ") ++ e.message)).data
    (by simp [requestExceptionMsg, transportCause, String.data_append, List.append_assoc])

theorem message_mem_transportMsg (m u : String) (e : TransportError) :
    strContains (requestExceptionMsg m u (transportCause e)) e.message :=
  strContains_of_data_split _ _
    (("Request to " ++ m ++ " " ++ u ++ " failed. " ++ "Exception while making request: "
      ++ e.typeName ++ ": ")).data
    []
    (by simp [requestExceptionMsg, transportCause, String.data_append, List.append_assoc])

theorem dropWhile_replicate_append (p : Char → Bool) (a : Char) (hp : p a = true)
    (n : Nat) (l : List Char) :
    (List.replicate n a ++ l).dropWhile p = l.dropWhile p := by
  induction n with
  | zero => simp
  | succ k ih =>
    rw [List.replicate_succ, List.cons_append, List.dropWhile_cons]
    simp [hp, ih]

theorem pyRstripSlashes_append_slashes (b : String) (n : Nat) :
    pyRstripSlashes (b ++ String.mk (List.replicate n '/')) = pyRstripSlashes b := by
  simp only [pyRstripSlashes, String.data_append]
  rw [List.reverse_append, List.reverse_replicate,
      dropWhile_replicate_append _ '/' (by decide) n]

theorem client_init_trailing (b : String) (n : Nat) :
    Client.init (b ++ String.mk (List.replicate n '/')) = Client.init b := by
  unfold Client.init
  rw [pyRstripSlashes_append_slashes]

theorem classificationMsg_shape (method url : String) (t : Except TransportError Response)
    (msg : String) (h : (run_request method url t).classificationMsg = some msg) :
    ∃ cause, msg = requestExceptionMsg method url cause := by
  cases t with
  | error e =>
    simp only [run_request, RunResult.classificationMsg, Option.some.injEq] at h
    exact ⟨transportCause e, h.symm⟩
  | ok r =>
    simp only [run_request] at h
    split at h
    · split at h
      · split at h
        · simp only [RunResult.classificationMsg, Option.some.injEq] at h
          exact ⟨"Exceeded rate limit", h.symm⟩
        · split at h
          · simp only [RunResult.classificationMsg, Option.some.injEq] at h
            exact ⟨"Exceeded rate limit", h.symm⟩
          · exact Option.noConfusion h
      · split at h
        · simp only [RunResult.classificationMsg, Option.some.injEq] at h
          exact ⟨unexpectedCodeCause r, h.symm⟩
        · simp only [RunResult.classificationMsg, Option.some.injEq] at h
          exact ⟨unexpectedCodeCause r, h.symm⟩
    · exact Option.noConfusion h

/-- C2: for every response whose status code is strictly less than 300,
`_run_request` returns success carrying the response body text exactly
as received, byte-for-byte, and raises no error. -/
theorem c2_success_verbatim (method url : String) (r : Response)
    (h : r.status_code < 300) :
    run_request method url (Except.ok r) = RunResult.success r.text := by
  simp only [run_request]
  rw [if_neg (by omega)]

theorem c2_success_verbatim_witness :
    run_request "GET" "https://h/ocp/bulks" (Except.ok ⟨200, none, "[]"⟩) =
      RunResult.success "[]" :=
  c2_success_verbatim "GET" "https://h/ocp/bulks" ⟨200, none, "[]"⟩ (by decide)

/-- C3: for every response whose status code is in the interval from 400
inclusive to 500 exclusive and is not 429, `_run_request` raises
`NonRetryableRequestException` (Client Fault), and the cause string
contains both the numeric status code and the full response body. -/
theorem c3_client_fault (method url : String) (r : Response)
    (h1 : 400 ≤ r.status_code) (h2 : r.status_code < 500)
    (h3 : r.status_code ≠ 429) :
    run_request method url (Except.ok r) =
      RunResult.nonRetryable (requestExceptionMsg method url (unexpectedCodeCause r)) ∧
    strContains (requestExceptionMsg method url (unexpectedCodeCause r)) (toString r.status_code) ∧
    strContains (requestExceptionMsg method url (unexpectedCodeCause r)) r.text := by
  refine ⟨?_, code_mem_unexpectedMsg method url r, body_mem_unexpectedMsg method url r⟩
  simp only [run_request]
  rw [if_pos (by omega), if_neg h3, if_pos ⟨by omega, h2⟩]

theorem c3_client_fault_witness :
    run_request "GET" "https://h/ocp/x" (Except.ok ⟨404, none, "not found"⟩) =
      RunResult.nonRetryable
        (requestExceptionMsg "GET" "https://h/ocp/x" (unexpectedCodeCause ⟨404, none, "not found"⟩)) ∧
    strContains
      (requestExceptionMsg "GET" "https://h/ocp/x" (unexpectedCodeCause ⟨404, none, "not found"⟩))
      "404" ∧
    strContains
      (requestExceptionMsg "GET" "https://h/ocp/x" (unexpectedCodeCause ⟨404, none, "not found"⟩))
      "not found" :=
  c3_client_fault "GET" "https://h/ocp/x" ⟨404, none, "not found"⟩
    (by decide) (by decide) (by decide)

/-- C4: for every response whose status code is at least 500 or in the
interval from 300 inclusive to 400 exclusive, `_run_request` raises the
base `RequestException` (Server Fault) — the `requestError` constructor,
distinct from the `nonRetryable` and `rateLimitExceeded` subclasses —
with the same cause format: the message contains the numeric status code
and the full response body text. -/
theorem c4_server_fault (method url : String) (r : Response)
    (h1 : 300 ≤ r.status_code)
    (h2 : r.status_code < 400 ∨ 500 ≤ r.status_code) :
    run_request method url (Except.ok r) =
      RunResult.requestError (requestExceptionMsg method url (unexpectedCodeCause r)) ∧
    strContains (requestExceptionMsg method url (unexpectedCodeCause r)) (toString r.status_code) ∧
    strContains (requestExceptionMsg method url (unexpectedCodeCause r)) r.text := by
  refine ⟨?_, code_mem_unexpectedMsg method url r, body_mem_unexpectedMsg method url r⟩
  simp only [run_request]
  rw [if_pos h1, if_neg (by omega), if_neg (by omega)]

theorem c4_server_fault_witness :
    run_request "GET" "https://h/ocp/x" (Except.ok ⟨503, none, "oops"⟩) =
      RunResult.requestError
        (requestExceptionMsg "GET" "https://h/ocp/x" (unexpectedCodeCause ⟨503, none, "oops"⟩)) ∧
    strContains
      (requestExceptionMsg "GET" "https://h/ocp/x" (unexpectedCodeCause ⟨503, none, "oops"⟩))
      "503" ∧
    strContains
      (requestExceptionMsg "GET" "https://h/ocp/x" (unexpectedCodeCause ⟨503, none, "oops"⟩))
      "oops" :=
  c4_server_fault "GET" "https://h/ocp/x" ⟨503, none, "oops"⟩
    (by decide) (by decide)

/-- C5: for every transport-adapter fault raised before any status code
is produced, `_run_request` raises the base `RequestException`
(Transport Fault), and the cause string contains both the fault's type
name and its message. -/
theorem c5_transport_fault (method url : String) (e : TransportError) :
    run_request method url (Except.error e) =
      RunResult.requestError (requestExceptionMsg method url (transportCause e)) ∧
    strContains (requestExceptionMsg method url (transportCause e)) e.typeName ∧
    strContains (requestExceptionMsg method url (transportCause e)) e.message :=
  ⟨rfl, typeName_mem_transportMsg method url e, message_mem_transportMsg method url e⟩

/-- C6: passing an empty list as `config_ids` and/or `fields` to
`get_adsorbate_slab_relaxations_results` builds a request identical in
every respect to the one built when the argument is omitted (`None`),
with no corresponding query parameter; in particular both empty filters
together produce an empty `params` dict. -/
theorem c6_empty_filters (c : Client) (system_id : String)
    (config_ids : Option (List Int)) (fields : Option (List String)) :
    get_adsorbate_slab_relaxations_results_req c system_id (some []) fields =
      get_adsorbate_slab_relaxations_results_req c system_id none fields ∧
    get_adsorbate_slab_relaxations_results_req c system_id config_ids (some []) =
      get_adsorbate_slab_relaxations_results_req c system_id config_ids none ∧
    resultsParams (some []) (some []) = [] :=
  ⟨rfl, rfl, rfl⟩

/-- C7: every error classification produced by `_run_request` — the ones
raised as `RequestException` or its subclasses, i.e. Transport Fault,
Client Fault, Rate Limited and Server Fault — carries the original HTTP
method and full URL in the exception message. -/
theorem c7_classification_context (method url : String)
    (t : Except TransportError Response) (msg : String)
    (h : (run_request method url t).classificationMsg = some msg) :
    strContains msg method ∧ strContains msg url := by
  obtain ⟨cause, rfl⟩ := classificationMsg_shape method url t msg h
  exact ⟨method_mem_reqMsg method url cause, url_mem_reqMsg method url cause⟩

theorem c7_classification_context_witness :
    strContains
      (requestExceptionMsg "GET" "https://h/ocp/bulks"
        (transportCause ⟨"ConnectionError", "connection refused"⟩)) "GET" ∧
    strContains
      (requestExceptionMsg "GET" "https://h/ocp/bulks"
        (transportCause ⟨"ConnectionError", "connection refused"⟩)) "https://h/ocp/bulks" :=
  c7_classification_context "GET" "https://h/ocp/bulks"
    (Except.error ⟨"ConnectionError", "connection refused"⟩)
    (requestExceptionMsg "GET" "https://h/ocp/bulks"
      (transportCause ⟨"ConnectionError", "connection refused"⟩)) rfl

/-- C1 counterexample: a 429 response whose `Retry-After` header is
present but not parseable as a number ("soon") is not classified as
Rate Limited — or as anything else: `float(retry_after)` raises an
uncaught `ValueError` out of `_run_request`, so the classification
itself fails with a parsing error, contradicting the claim. -/
theorem c1_rate_limited_counterexample :
    run_request "GET" "https://h/ocp/bulks" (Except.ok ⟨429, some "soon", ""⟩) =
      RunResult.valueError "could not convert string to float: soon" ∧
    (run_request "GET" "https://h/ocp/bulks" (Except.ok ⟨429, some "soon", ""⟩)).classificationMsg
      = none :=
  ⟨rfl, rfl⟩

/-- C1 amended: for every response with status code exactly 429, if the
`Retry-After` header is absent the outcome is Rate Limited
(`RateLimitExceededException`) with an empty hint; if the header is
present and parseable as a number the outcome is Rate Limited with the
hint equal to exactly that many seconds; but if the header is present
and not parseable as a number, `_run_request` fails with an uncaught
`ValueError` from `float()` instead of producing a classification. -/
theorem c1_rate_limited_amended (method url : String) (r : Response)
    (h : r.status_code = 429) :
    (r.retryAfterHeader = none →
      run_request method url (Except.ok r) =
        RunResult.rateLimitExceeded
          (requestExceptionMsg method url "Exceeded rate limit") none) ∧
    (∀ s q, r.retryAfterHeader = some s → pyFloat? s = some q →
      run_request method url (Except.ok r) =
        RunResult.rateLimitExceeded
          (requestExceptionMsg method url "Exceeded rate limit") (some q)) ∧
    (∀ s, r.retryAfterHeader = some s → pyFloat? s = none →
      run_request method url (Except.ok r) =
        RunResult.valueError ("could not convert string to float: " ++ s)) := by
  refine ⟨?_, ?_, ?_⟩
  · intro hh
    simp only [run_request]
    rw [if_pos (by omega), if_pos h, hh]
  · intro s q hs hq
    simp only [run_request]
    rw [if_pos (by omega), if_pos h, hs]
    simp only [hq]
  · intro s hs hq
    simp only [run_request]
    rw [if_pos (by omega), if_pos h, hs]
    simp only [hq]

theorem c1_rate_limited_amended_witness :
    run_request "GET" "https://h/ocp/bulks" (Except.ok ⟨429, some "3.5", ""⟩) =
      RunResult.rateLimitExceeded
        (requestExceptionMsg "GET" "https://h/ocp/bulks" "Exceeded rate limit")
        (some (mkRat 7 2)) :=
  (c1_rate_limited_amended "GET" "https://h/ocp/bulks" ⟨429, some "3.5", ""⟩ rfl).2.1
    "3.5" (mkRat 7 2) rfl (by decide)

/-- C9: the constructor strips all trailing slash characters from
`base_url`, so a `Client` built from a base URL with extra trailing
slashes has the same normalized state and issues character-for-character
identical request URLs on every endpoint method. -/
theorem c9_trailing_slashes (b system_id : String) (n : Nat) :
    Client.init (b ++ String.mk (List.replicate n '/')) = Client.init b ∧
    get_bulks_url (Client.init (b ++ String.mk (List.replicate n '/'))) =
      get_bulks_url (Client.init b) ∧
    get_adsorbates_url (Client.init (b ++ String.mk (List.replicate n '/'))) =
      get_adsorbates_url (Client.init b) ∧
    get_slabs_url (Client.init (b ++ String.mk (List.replicate n '/'))) =
      get_slabs_url (Client.init b) ∧
    get_adsorbate_slab_configs_url (Client.init (b ++ String.mk (List.replicate n '/'))) =
      get_adsorbate_slab_configs_url (Client.init b) ∧
    submit_adsorbate_slab_relaxations_url (Client.init (b ++ String.mk (List.replicate n '/'))) =
      submit_adsorbate_slab_relaxations_url (Client.init b) ∧
    get_adsorbate_slab_relaxations_request_url
        (Client.init (b ++ String.mk (List.replicate n '/'))) system_id =
      get_adsorbate_slab_relaxations_request_url (Client.init b) system_id ∧
    get_adsorbate_slab_relaxations_results_url
        (Client.init (b ++ String.mk (List.replicate n '/'))) system_id =
      get_adsorbate_slab_relaxations_results_url (Client.init b) system_id ∧
    delete_adsorbate_slab_relaxations_url
        (Client.init (b ++ String.mk (List.replicate n '/'))) system_id =
      delete_adsorbate_slab_relaxations_url (Client.init b) system_id := by
  rw [client_init_trailing]
  exact ⟨rfl, rfl, rfl, rfl, rfl, rfl, rfl, rfl, rfl⟩

/-- C10: calling `get_slabs` with a `Bulk` instance builds exactly the
same request — same URL, method, headers and JSON body mapping
"bulk_src_id" to the bulk's `src_id` — as calling it with the string
`src_id` itself; the two call forms are observationally equivalent. -/
theorem c10_get_slabs_bulk_equiv (c : Client) (b : Bulk) :
    get_slabs_req c (Sum.inr b) = get_slabs_req c (Sum.inl b.src_id) :=
  rfl
